import Mathlib

/-!
Verification of the nutrition-planner repository (`nutrition_planner.py`).

Python numeric values (floats/ints) are modelled as rationals `ℚ`; Python
strings as Lean `String`; Python tuples as products; the `random.choice`
calls are modelled by explicit choice parameters so that theorems quantify
over every possible outcome of the random draws.
-/

/-- ASCII lower-casing of a string, modelling Python `str.lower()` on the
ASCII strings this program uses (Lean core `String.toLower` does the same
character map but does not reduce in the kernel). -/
def lowerStr (s : String) : String := ⟨s.data.map Char.toLower⟩

/-- Python `d.get(k, dflt)` for a string-keyed dict modelled as an
association list. -/
def dictGet (d : List (String × ℚ)) (k : String) (dflt : ℚ) : ℚ :=
  match d with
  | [] => dflt
  | (k', v) :: rest => if k = k' then v else dictGet rest k dflt

/-- Embeds the module-level `factors` dict: activity level multiplier per
pound, keyed by the activity name. -/
def factors : List (String × ℚ) :=
  [("low", 12), ("medium", 14), ("high", 16)]

/-- Embeds `maintain_cals(weight_lb, activity_level)`: looks up the
lowercased activity level in `factors` with default `14.0` and returns
`weight_lb * factor`. -/
def maintain_cals (weight_lb : ℚ) (activity_level : String) : ℚ :=
  let factor := dictGet factors (lowerStr activity_level) 14
  weight_lb * factor

/-- The fields stored on a `Person` instance by `Person.__init__`. -/
structure Person where
  current_w : ℚ
  goal_w : ℚ
  timeline : ℚ
  activity : String
  health_concern : Bool
  calorie_target : ℚ
  fiber_grams : ℚ
  sat_fat : ℚ
  deriving DecidableEq, Repr

/-- Embeds `Person.__init__(current_w, goal_w, timeline, activity,
health_concern=False, calorie_target=2000, sat_fat=1)`.  The `sat_fat`
parameter is accepted but the stored `self.sat_fat` is computed from
`calorie_target` (`(calorie_target * 0.07) / 9`), exactly as the Python
constructor does; `fiber_grams` is `(calorie_target / 1000) * 14`. -/
def Person.init (current_w goal_w timeline : ℚ) (activity : String)
    (health_concern : Bool := false) (calorie_target : ℚ := 2000)
    (_sat_fat : ℚ := 1) : Person :=
  { current_w := current_w
    goal_w := goal_w
    timeline := timeline
    activity := activity
    health_concern := health_concern
    calorie_target := calorie_target
    fiber_grams := (calorie_target / 1000) * 14
    sat_fat := (calorie_target * (7/100)) / 9 }

/-- Embeds `Person.goal_type`. -/
def Person.goal_type (p : Person) : String :=
  if p.goal_w < p.current_w then "lose"
  else if p.goal_w > p.current_w then "gain"
  else "maintain"

/-- Embeds `Person.daily_calorie_target`: returns the pair
`(calorie_target, unhealthy)`. -/
def Person.daily_calorie_target (p : Person) : ℚ × Bool :=
  let maintenance := maintain_cals p.current_w p.activity
  let pounds_change := p.goal_w - p.current_w
  let total_calorie_shift := pounds_change * 3500
  let days := max (p.timeline * 7) 1
  let daily_adjustment := total_calorie_shift / days
  let unhealthy := decide (|daily_adjustment| > 1000)
  let calorie_target := maintenance + daily_adjustment
  (calorie_target, unhealthy)

/-- Embeds `Person.protein_grams`. -/
def Person.protein_grams (p : Person) : ℚ :=
  let goal := p.goal_type
  let multiplier : ℚ := if goal = "lose" then 1 else (4/5)
  p.current_w * multiplier

example : (Person.init 160 140 12 "medium").goal_type = "lose" := by decide
example : (Person.init 120 150 12 "medium").goal_type = "gain" := by decide
example : (Person.init 150 150 12 "medium").goal_type = "maintain" := by decide
example : maintain_cals 150 "low" = 1800 := by
  simp [maintain_cals, dictGet, factors, show lowerStr "low" = "low" from by decide]
  norm_num
example : maintain_cals 150 "MeDiUM" = 2100 := by
  simp [maintain_cals, dictGet, factors, show lowerStr "MeDiUM" = "medium" from by decide]
  norm_num
example : (Person.init 150 130 10 "medium").daily_calorie_target = (1100, false) := by
  simp [Person.daily_calorie_target, Person.init, maintain_cals, dictGet, factors,
    show lowerStr "medium" = "medium" from by decide]
  norm_num
example : (Person.init 150 130 12 "medium").protein_grams = 150 := by
  simp [Person.protein_grams, Person.goal_type, Person.init]
  norm_num

/-- One row of the food table built by `store_food_df`:
`(group, category, food, calories)`. -/
abbrev FoodRow := String × String × String × ℕ

/-- The fields stored on a `FoodDatabase` instance. -/
structure FoodDatabase where
  low_cal : List (String × List (String × ℕ))
  high_cal : List (String × List (String × ℕ))
  deriving DecidableEq, Repr

/-- Embeds `FoodDatabase.__init__`: the concrete low- and high-calorie
catalogs, categories in insertion order. -/
def FoodDatabase.init : FoodDatabase :=
  { low_cal := [
      ("protein", [
        ("chicken breast, 100g", 165),
        ("tofu, 100g", 80),
        ("egg whites, 3 large", 50)]),
      ("dairy", [
        ("nonfat Greek yogurt, 150g", 90),
        ("skim milk, 1 cup", 80)]),
      ("veggies", [
        ("spinach, 2 cups", 20),
        ("broccoli, 1 cup", 55)]),
      ("grain", [
        ("brown rice, 1/2 cup cooked", 110),
        ("quinoa, 185g", 222)])]
    high_cal := [
      ("protein", [
        ("peanut butter, 32g", 188),
        ("ground beef, 100g", 250)]),
      ("dairy", [
        ("cheddar cheese, 1 oz", 115),
        ("whole milk, 1 cup", 150)]),
      ("veggies", [
        ("sweet potato, 1 medium", 110),
        ("avocado, 1/2", 120)]),
      ("grain", [
        ("white rice, 1 cup cooked", 200),
        ("pasta, 1 cup cooked", 220)])] }

/-- Embeds `FoodDatabase.store_food_df(group="low")`: builds the rows
`(group, category, food, calories)` in catalog order and sorts them by the
`calories` key.  `pandas.DataFrame.sort_values("calories")` is modelled as
a stable insertion sort on that key (on these small frames the pandas
quicksort degenerates to a stable insertion sort, so the outputs agree
row for row). -/
def FoodDatabase.store_food_df (db : FoodDatabase) (group : String := "low") :
    List FoodRow :=
  let sl := if group = "low" then (db.low_cal, "low_cal") else (db.high_cal, "high_cal")
  let rows := sl.1.flatMap (fun cf => cf.2.map (fun nc => (sl.2, cf.1, nc.1, nc.2)))
  List.insertionSort (fun a b => a.2.2.2 ≤ b.2.2.2) rows

/-- Models one `random.choice(foods)` call: the adversarially chosen
number `k` selects the element at index `k % foods.length`, so every
element of `foods` is a possible outcome and no other value is. -/
def chooseItem (k : ℕ) (foods : List (String × ℕ)) : String × ℕ :=
  foods.getD (k % foods.length) ("", 0)

/-- The `for category, foods in source.items()` loop of `random_meal`:
returns the list of `(category, chosen item)` pairs, the `i`-th category
using the `i`-th random draw `pick i`. -/
def chooseAll (pick : ℕ → ℕ) : ℕ → List (String × List (String × ℕ)) →
    List (String × String × ℕ)
  | _, [] => []
  | i, cf :: rest => (cf.1, chooseItem (pick i) cf.2) :: chooseAll pick (i + 1) rest

/-- Embeds `FoodDatabase.random_meal(person)`: returns
`(meal_items, total_cals, group)`.  The two random sources are explicit:
`pickHigh` models `random.choice([self.low_cal, self.high_cal])`
(`true` selects `high_cal`), and `pick` models the per-category
`random.choice(foods)` draws. -/
def FoodDatabase.random_meal (db : FoodDatabase) (person : Person)
    (pickHigh : Bool) (pick : ℕ → ℕ) : List String × ℕ × String :=
  let sg :=
    if person.goal_type = "lose" then (db.low_cal, "low")
    else if person.goal_type = "gain" then (db.high_cal, "high")
    else (if pickHigh then db.high_cal else db.low_cal, "balanced")
  let chosen := chooseAll pick 0 sg.1
  let meal_items := chosen.map (fun c => c.1 ++ ": " ++ c.2.1)
  let total_cals := (chosen.map (fun c => c.2.2)).sum
  (meal_items, total_cals, sg.2)

example : (FoodDatabase.init.store_food_df "low").length = 9 := by decide
example : (FoodDatabase.init.store_food_df "high").length = 8 := by decide
example : List.Chain' (fun a b : FoodRow => a.2.2.2 ≤ b.2.2.2)
    (FoodDatabase.init.store_food_df "low") := by
  norm_num [show FoodDatabase.init.store_food_df "low" =
    [("low_cal", "veggies", "spinach, 2 cups", 20),
     ("low_cal", "protein", "egg whites, 3 large", 50),
     ("low_cal", "veggies", "broccoli, 1 cup", 55),
     ("low_cal", "protein", "tofu, 100g", 80),
     ("low_cal", "dairy", "skim milk, 1 cup", 80),
     ("low_cal", "dairy", "nonfat Greek yogurt, 150g", 90),
     ("low_cal", "grain", "brown rice, 1/2 cup cooked", 110),
     ("low_cal", "protein", "chicken breast, 100g", 165),
     ("low_cal", "grain", "quinoa, 185g", 222)] from by decide,
    List.chain'_cons]
example :
    (FoodDatabase.init.random_meal (Person.init 150 140 8 "medium") false (fun _ => 0)) =
      (["protein: chicken breast, 100g", "dairy: nonfat Greek yogurt, 150g",
        "veggies: spinach, 2 cups", "grain: brown rice, 1/2 cup cooked"], 385, "low") := by
  decide

/-! ### Evaluation lemmas for the concrete activity strings -/

theorem lowerStr_low : lowerStr "low" = "low" := by decide

theorem lowerStr_medium : lowerStr "medium" = "medium" := by decide

theorem lowerStr_high : lowerStr "high" = "high" := by decide

/-- C1: for every profile, `daily_calorie_target` returns the pair whose
first component is `maintain_cals(current_w, activity) +
((goal_w - current_w) * 3500) / max (timeline * 7) 1`, and whose second
component (`unhealthy`) is true iff the absolute daily adjustment —
equivalently `|target - maintenance|` — is strictly greater than 1000. -/
theorem daily_calorie_target_spec (p : Person) :
    p.daily_calorie_target =
      (maintain_cals p.current_w p.activity +
        ((p.goal_w - p.current_w) * 3500) / max (p.timeline * 7) 1,
       decide (|((p.goal_w - p.current_w) * 3500) / max (p.timeline * 7) 1| > 1000)) ∧
    (p.daily_calorie_target.2 = true ↔
      |p.daily_calorie_target.1 - maintain_cals p.current_w p.activity| > 1000) := by
  refine ⟨rfl, ?_⟩
  simp only [Person.daily_calorie_target, decide_eq_true_eq, add_sub_cancel_left]

/-- C2: `goal_type` returns "lose" iff `goal_w < current_w`, "gain" iff
`goal_w > current_w`, and "maintain" iff `goal_w = current_w`, by exact
comparison. -/
theorem goal_type_spec (p : Person) :
    (p.goal_type = "lose" ↔ p.goal_w < p.current_w) ∧
    (p.goal_type = "gain" ↔ p.goal_w > p.current_w) ∧
    (p.goal_type = "maintain" ↔ p.goal_w = p.current_w) := by
  rcases lt_trichotomy p.goal_w p.current_w with h | h | h
  · simp [Person.goal_type, h, h.ne, lt_asymm h]
  · simp [Person.goal_type, h]
  · simp [Person.goal_type, h, h.ne', lt_asymm h]

/-- C3: `maintain_cals w s` is `w` times the factor found by looking up the
lowercased `s` in the table low ↦ 12, medium ↦ 14, high ↦ 16 with default
14; hence the lookup is case-insensitive and the concrete values at weight
150 are 1800 / 2100 / 2400. -/
theorem maintain_cals_spec :
    (∀ (w : ℚ) (s : String), maintain_cals w s =
      w * (if lowerStr s = "low" then 12
           else if lowerStr s = "medium" then 14
           else if lowerStr s = "high" then 16 else 14)) ∧
    maintain_cals 150 "low" = 1800 ∧
    maintain_cals 150 "medium" = 2100 ∧
    maintain_cals 150 "high" = 2400 ∧
    maintain_cals 150 "MEDIUM" = maintain_cals 150 "medium" ∧
    maintain_cals 150 "MeDiUM" = maintain_cals 150 "medium" := by
  have htab : ∀ (w : ℚ) (s : String), maintain_cals w s =
      w * (if lowerStr s = "low" then 12
           else if lowerStr s = "medium" then 14
           else if lowerStr s = "high" then 16 else 14) := by
    intro w s
    simp [maintain_cals, dictGet, factors]
  refine ⟨htab, ?_, ?_, ?_, ?_, ?_⟩ <;>
    simp [htab, lowerStr_low, lowerStr_medium, lowerStr_high,
      show lowerStr "MEDIUM" = "medium" from by decide,
      show lowerStr "MeDiUM" = "medium" from by decide] <;>
    norm_num

/-- C6: `daily_calorie_target` is total: the denominator
`max (timeline * 7) 1` is at least 1 (so nonzero) for every timeline,
including zero and negative ones, and the function always returns the
numeric pair, never an error. -/
theorem daily_calorie_target_total (p : Person) :
    (1 : ℚ) ≤ max (p.timeline * 7) 1 ∧
    max (p.timeline * 7) 1 ≠ 0 ∧
    p.daily_calorie_target =
      (maintain_cals p.current_w p.activity +
        ((p.goal_w - p.current_w) * 3500) / max (p.timeline * 7) 1,
       decide (|((p.goal_w - p.current_w) * 3500) / max (p.timeline * 7) 1| > 1000)) :=
  ⟨le_max_right _ _, (lt_of_lt_of_le zero_lt_one (le_max_right _ _)).ne', rfl⟩

/-- C7: `protein_grams` is `current_w * 1` for a "lose" goal and
`current_w * 0.8` otherwise, so at equal positive weight and activity a
"lose" profile gets strictly more protein than a "gain" profile. -/
theorem protein_grams_spec (r p q : Person)
    (hw : p.current_w = q.current_w) (hpos : 0 < p.current_w)
    (ha : p.activity = q.activity)
    (hp : p.goal_type = "lose") (hq : q.goal_type = "gain") :
    (r.protein_grams =
      if r.goal_type = "lose" then r.current_w * 1 else r.current_w * (4/5)) ∧
    q.protein_grams < p.protein_grams := by
  constructor
  · by_cases h : r.goal_type = "lose" <;> simp [Person.protein_grams, h]
  · simp only [Person.protein_grams, hp, hq]
    simp only [show ("gain" : String) ≠ "lose" from by decide, if_neg, if_pos,
      reduceIte]
    rw [← hw]
    linarith

/-- Witness for C7 at the test-file profiles (150→130 lose vs 150→170
gain, both "medium"). -/
theorem protein_grams_spec_witness :
    ((Person.init 150 150 12 "medium").protein_grams =
      if (Person.init 150 150 12 "medium").goal_type = "lose"
      then (Person.init 150 150 12 "medium").current_w * 1
      else (Person.init 150 150 12 "medium").current_w * (4/5)) ∧
    (Person.init 150 170 12 "medium").protein_grams <
      (Person.init 150 130 12 "medium").protein_grams :=
  protein_grams_spec (Person.init 150 150 12 "medium")
    (Person.init 150 130 12 "medium") (Person.init 150 170 12 "medium")
    rfl (by norm_num [Person.init]) rfl (by decide) (by decide)

/-- C8: for any positive weight, maintenance calories are strictly
increasing from "low" to "medium" to "high" activity. -/
theorem maintain_cals_mono (w : ℚ) (hw : 0 < w) :
    maintain_cals w "low" < maintain_cals w "medium" ∧
    maintain_cals w "medium" < maintain_cals w "high" := by
  have h1 : maintain_cals w "low" = w * 12 := by
    simp [maintain_cals, dictGet, factors, lowerStr_low]
  have h2 : maintain_cals w "medium" = w * 14 := by
    simp [maintain_cals, dictGet, factors, lowerStr_medium]
  have h3 : maintain_cals w "high" = w * 16 := by
    simp [maintain_cals, dictGet, factors, lowerStr_high]
  rw [h1, h2, h3]
  constructor <;> linarith

/-- Witness for C8 at weight 150. -/
theorem maintain_cals_mono_witness :
    maintain_cals 150 "low" < maintain_cals 150 "medium" ∧
    maintain_cals 150 "medium" < maintain_cals 150 "high" :=
  maintain_cals_mono 150 (by norm_num)

/-- C9: the constructor stores `fiber_grams = (calorie_target / 1000) * 14`
and `sat_fat = (calorie_target * 0.07) / 9`; the `sat_fat` argument is
ignored, so two persons built with different `sat_fat` arguments are equal
and every operation returns the same result on them. -/
theorem Person_init_spec (cw gw tl : ℚ) (act : String) (hc : Bool)
    (ct s₁ s₂ : ℚ) :
    Person.init cw gw tl act hc ct s₁ = Person.init cw gw tl act hc ct s₂ ∧
    (Person.init cw gw tl act hc ct s₁).fiber_grams = (ct / 1000) * 14 ∧
    (Person.init cw gw tl act hc ct s₁).sat_fat = (ct * (7/100)) / 9 ∧
    (Person.init cw gw tl act hc ct s₁).goal_type =
      (Person.init cw gw tl act hc ct s₂).goal_type ∧
    (Person.init cw gw tl act hc ct s₁).daily_calorie_target =
      (Person.init cw gw tl act hc ct s₂).daily_calorie_target ∧
    (Person.init cw gw tl act hc ct s₁).protein_grams =
      (Person.init cw gw tl act hc ct s₂).protein_grams :=
  ⟨rfl, rfl, rfl, rfl, rfl, rfl⟩

/-! ### Helper lemmas for `random_meal` -/

theorem chooseItem_mem {foods : List (String × ℕ)} (h : foods ≠ []) (k : ℕ) :
    chooseItem k foods ∈ foods := by
  unfold chooseItem
  have hlen : 0 < foods.length := List.length_pos.2 h
  have hk : k % foods.length < foods.length := Nat.mod_lt _ hlen
  rw [List.getD_eq_getElem _ _ hk]
  exact List.getElem_mem hk

theorem chooseAll_forall₂ (pick : ℕ → ℕ)
    (src : List (String × List (String × ℕ))) :
    ∀ i : ℕ, (∀ e ∈ src, e.2 ≠ []) →
      List.Forall₂ (fun e c => c.1 = e.1 ∧ c.2 ∈ e.2) src (chooseAll pick i src) := by
  induction src with
  | nil => intro i _; exact List.Forall₂.nil
  | cons e rest ih =>
    intro i h
    refine List.Forall₂.cons ⟨rfl, ?_⟩ (ih (i + 1) fun x hx => h x (List.mem_cons_of_mem _ hx))
    exact chooseItem_mem (h e (List.mem_cons_self _ _)) (pick i)

theorem chooseAll_sum_pos (pick : ℕ → ℕ) (i : ℕ)
    (src : List (String × List (String × ℕ))) (hne : src ≠ [])
    (h1 : ∀ e ∈ src, e.2 ≠ [])
    (h2 : ∀ e ∈ src, ∀ nc ∈ e.2, 0 < nc.2) :
    0 < ((chooseAll pick i src).map (fun c => c.2.2)).sum := by
  match src with
  | [] => exact absurd rfl hne
  | e :: rest =>
    have hmem : chooseItem (pick i) e.2 ∈ e.2 :=
      chooseItem_mem (h1 e (List.mem_cons_self _ _)) (pick i)
    have hpos : 0 < (chooseItem (pick i) e.2).2 :=
      h2 e (List.mem_cons_self _ _) _ hmem
    simp only [chooseAll, List.map_cons, List.sum_cons]
    exact Nat.add_pos_left hpos _

theorem mealLoop_spec (pick : ℕ → ℕ)
    (src : List (String × List (String × ℕ))) (hne : src ≠ [])
    (h1 : ∀ e ∈ src, e.2 ≠ [])
    (h2 : ∀ e ∈ src, ∀ nc ∈ e.2, 0 < nc.2) :
    ((chooseAll pick 0 src).map (fun c => c.1 ++ ": " ++ c.2.1)).length = src.length ∧
    List.Forall₂ (fun e item => ∃ nc, nc ∈ e.2 ∧ item = e.1 ++ ": " ++ nc.1)
      src ((chooseAll pick 0 src).map (fun c => c.1 ++ ": " ++ c.2.1)) ∧
    0 < ((chooseAll pick 0 src).map (fun c => c.2.2)).sum := by
  have hf := chooseAll_forall₂ pick src 0 h1
  refine ⟨?_, ?_, chooseAll_sum_pos pick 0 src hne h1 h2⟩
  · rw [List.length_map, ← hf.length_eq]
  · rw [List.forall₂_map_right_iff]
    exact hf.imp fun e c hc => ⟨c.2, hc.2, by rw [hc.1]⟩

/-- C4: for every profile and every outcome of the random draws,
`random_meal` labels the meal "low" (drawn from the low-calorie table) for
a lose goal, "high" (high-calorie table) for a gain goal, and "balanced"
(coin flip between the two tables) for a maintain goal; `meal_items` has
exactly one entry per catalog category (length 4, each of the form
"category: food"), and `total_cals` is the sum of the calories of the
chosen items and is strictly positive. -/
theorem random_meal_spec (p : Person) (pickHigh : Bool) (pick : ℕ → ℕ) :
    (FoodDatabase.init.random_meal p pickHigh pick).2.2 =
      (if p.goal_type = "lose" then "low"
       else if p.goal_type = "gain" then "high" else "balanced") ∧
    (FoodDatabase.init.random_meal p pickHigh pick).1.length = 4 ∧
    List.Forall₂ (fun e item => ∃ nc, nc ∈ e.2 ∧ item = e.1 ++ ": " ++ nc.1)
      (if p.goal_type = "lose" then FoodDatabase.init.low_cal
       else if p.goal_type = "gain" then FoodDatabase.init.high_cal
       else if pickHigh then FoodDatabase.init.high_cal
       else FoodDatabase.init.low_cal)
      (FoodDatabase.init.random_meal p pickHigh pick).1 ∧
    (FoodDatabase.init.random_meal p pickHigh pick).2.1 =
      ((chooseAll pick 0
        (if p.goal_type = "lose" then FoodDatabase.init.low_cal
         else if p.goal_type = "gain" then FoodDatabase.init.high_cal
         else if pickHigh then FoodDatabase.init.high_cal
         else FoodDatabase.init.low_cal)).map (fun c => c.2.2)).sum ∧
    0 < (FoodDatabase.init.random_meal p pickHigh pick).2.1 := by
  have hlow := mealLoop_spec pick FoodDatabase.init.low_cal
    (by decide) (by decide) (by decide)
  have hhigh := mealLoop_spec pick FoodDatabase.init.high_cal
    (by decide) (by decide) (by decide)
  by_cases hl : p.goal_type = "lose"
  · simp only [FoodDatabase.random_meal, if_pos hl]
    exact ⟨trivial, hlow.1.trans rfl, hlow.2.1, trivial, hlow.2.2⟩
  · by_cases hg : p.goal_type = "gain"
    · simp only [FoodDatabase.random_meal, if_neg hl, if_pos hg]
      exact ⟨trivial, hhigh.1.trans rfl, hhigh.2.1, trivial, hhigh.2.2⟩
    · cases pickHigh
      · simp only [FoodDatabase.random_meal, if_neg hl, if_neg hg, Bool.false_eq_true,
          if_neg (by decide : ¬ (false = true))]
        exact ⟨trivial, hlow.1.trans rfl, hlow.2.1, trivial, hlow.2.2⟩
      · simp only [FoodDatabase.random_meal, if_neg hl, if_neg hg,
          if_pos (rfl : (true : Bool) = true)]
        exact ⟨trivial, hhigh.1.trans rfl, hhigh.2.1, trivial, hhigh.2.2⟩

/-- The unsorted rows built by the loop in `store_food_df`, in
catalog-declaration order (the body of the `for category, foods in
source.items()` loop before `df.sort_values`). -/
def foodRows (source : List (String × List (String × ℕ))) (label : String) :
    List FoodRow :=
  source.flatMap (fun cf => cf.2.map (fun nc => (label, cf.1, nc.1, nc.2)))

/-- C5: for tiers "low" and "high", `store_food_df` returns the rows
sorted non-decreasingly by calories; the sort is stable (rows with equal
calories keep their catalog-declaration relative order, measured by their
position in the unsorted `foodRows`); the row count is the total number of
items across the categories of the tier; and the tier defaults to "low". -/
theorem store_food_df_spec :
    FoodDatabase.init.store_food_df = FoodDatabase.init.store_food_df "low" ∧
    List.Chain' (fun a b : FoodRow => a.2.2.2 ≤ b.2.2.2)
      (FoodDatabase.init.store_food_df "low") ∧
    List.Chain' (fun a b : FoodRow => a.2.2.2 ≤ b.2.2.2)
      (FoodDatabase.init.store_food_df "high") ∧
    (FoodDatabase.init.store_food_df "low").length =
      (FoodDatabase.init.low_cal.map (fun e => e.2.length)).sum ∧
    (FoodDatabase.init.store_food_df "high").length =
      (FoodDatabase.init.high_cal.map (fun e => e.2.length)).sum ∧
    (∀ i j : Fin (FoodDatabase.init.store_food_df "low").length,
      (i : ℕ) < (j : ℕ) →
      ((FoodDatabase.init.store_food_df "low").get i).2.2.2 =
        ((FoodDatabase.init.store_food_df "low").get j).2.2.2 →
      List.indexOf ((FoodDatabase.init.store_food_df "low").get i)
          (foodRows FoodDatabase.init.low_cal "low_cal") <
        List.indexOf ((FoodDatabase.init.store_food_df "low").get j)
          (foodRows FoodDatabase.init.low_cal "low_cal")) ∧
    (∀ i j : Fin (FoodDatabase.init.store_food_df "high").length,
      (i : ℕ) < (j : ℕ) →
      ((FoodDatabase.init.store_food_df "high").get i).2.2.2 =
        ((FoodDatabase.init.store_food_df "high").get j).2.2.2 →
      List.indexOf ((FoodDatabase.init.store_food_df "high").get i)
          (foodRows FoodDatabase.init.high_cal "high_cal") <
        List.indexOf ((FoodDatabase.init.store_food_df "high").get j)
          (foodRows FoodDatabase.init.high_cal "high_cal")) := by
  refine ⟨rfl, ?_, ?_, by decide, by decide, by decide, by decide⟩
  · rw [show FoodDatabase.init.store_food_df "low" =
      [("low_cal", "veggies", "spinach, 2 cups", 20),
       ("low_cal", "protein", "egg whites, 3 large", 50),
       ("low_cal", "veggies", "broccoli, 1 cup", 55),
       ("low_cal", "protein", "tofu, 100g", 80),
       ("low_cal", "dairy", "skim milk, 1 cup", 80),
       ("low_cal", "dairy", "nonfat Greek yogurt, 150g", 90),
       ("low_cal", "grain", "brown rice, 1/2 cup cooked", 110),
       ("low_cal", "protein", "chicken breast, 100g", 165),
       ("low_cal", "grain", "quinoa, 185g", 222)] from by decide]
    norm_num [List.chain'_cons]
  · rw [show FoodDatabase.init.store_food_df "high" =
      [("high_cal", "veggies", "sweet potato, 1 medium", 110),
       ("high_cal", "dairy", "cheddar cheese, 1 oz", 115),
       ("high_cal", "veggies", "avocado, 1/2", 120),
       ("high_cal", "dairy", "whole milk, 1 cup", 150),
       ("high_cal", "protein", "peanut butter, 32g", 188),
       ("high_cal", "grain", "white rice, 1 cup cooked", 200),
       ("high_cal", "grain", "pasta, 1 cup cooked", 220),
       ("high_cal", "protein", "ground beef, 100g", 250)] from by decide]
    norm_num [List.chain'_cons]

/-- C10: any `group` argument other than the exact string "low" — "high",
"HIGH", "Low", or anything else — selects the high-calorie table with
group label "high_cal"; tier selection is an exact case-sensitive
comparison against "low" and unknown tiers raise no error. -/
theorem store_food_df_other_groups (g : String) (hg : g ≠ "low") :
    FoodDatabase.init.store_food_df g = FoodDatabase.init.store_food_df "high" ∧
    ∀ r ∈ FoodDatabase.init.store_food_df g, r.1 = "high_cal" := by
  have he : FoodDatabase.init.store_food_df g =
      FoodDatabase.init.store_food_df "high" := by
    simp only [FoodDatabase.store_food_df, if_neg hg,
      if_neg (by decide : ¬ ("high" : String) = "low")]
  refine ⟨he, ?_⟩
  rw [he]
  decide

/-- Witness for C10 at the uppercase tier name "HIGH". -/
theorem store_food_df_other_groups_witness :
    FoodDatabase.init.store_food_df "HIGH" =
      FoodDatabase.init.store_food_df "high" ∧
    ∀ r ∈ FoodDatabase.init.store_food_df "HIGH", r.1 = "high_cal" :=
  store_food_df_other_groups "HIGH" (by decide)
